import Mathlib

/-!
Verification of the listing search core of the Imobiliaria repository
(src/core/views.py), a Django faceted-search view over a small real-estate
data model.  The entity model (models.py) is not part of the sources, so the
record types below are modelled from the specification (section 3) restricted
to the fields that views.py actually reads.  The view functions themselves
(lista_imoveis, detalhe_imovel) are translated from src/core/views.py.

Modelling notes for the Django ORM semantics used by views.py:
- Successive .filter() calls that traverse a multi-valued relation
  (precos, fotos, infraestrutura) each introduce an independent join, so each
  such call contributes an independent existential condition on the listing
  (documented Django behaviour for spanning multi-valued relationships).
- .distinct() compiles to SQL SELECT DISTINCT over the selected columns.
  When the query is ordered by a column of a related model (precos__valor),
  that column is added to the selected columns, so rows that differ only in
  the related value survive DISTINCT (documented Django behaviour of
  distinct() combined with order_by() across a relation).  When the ordering
  uses only columns of the listing itself, join duplicates collapse and the
  result rows are exactly the distinct matching listings.
- Ordering by precos__valor reuses the first join on precos created by the
  filters (finalidade, preco_min, preco_max, in that order) when one exists,
  otherwise it introduces its own outer join; a listing without any price row
  then sorts with a NULL key (placed first ascending, last descending, the
  SQLite convention).
- QuerySet.count(), used by the paginator, wraps the distinct query in a
  COUNT subquery and drops the ordering, so the reported count is the number
  of distinct matching listings even when the page rows contain duplicates.
- Ties not decided by the SQL ORDER BY keys are resolved here by keeping the
  store order (a stable sort), one fixed choice of the order the database is
  free to pick.
- Python numeric literals are modelled over the rationals; the int()/float()
  parsers below cover the plain decimal forms (optional sign, digits,
  optional fraction part) and treat exotic forms (exponents, underscores,
  inf/nan, non-ASCII digits) as out of model.
-/

/-- Modelled from the spec: lifecycle status of a Listing (models.py is not in
the sources; section 3 lists the five states, matching the admin badge map). -/
inductive StatusImovel where
  | ativo
  | vendido
  | alugado
  | reservado
  | inativo
deriving DecidableEq, Repr

/-- Modelled from the spec: a Listing (Imovel) record, restricted to the
fields read by the search core in views.py.  Property type and furnished
state are kept as raw strings since the view compares them verbatim against
request parameters; infraestrutura holds the identifiers of the attached
amenity tags (the many-to-many relation). -/
structure Imovel where
  pk : Int
  proprietario : Int
  titulo : String
  descricao : String
  endereco : String
  bairro : String
  cidade : String
  tipo : String
  status : StatusImovel
  quartos : Nat
  banheiros : Nat
  vagas_garagem : Nat
  area_util : ℚ
  mobilia : String
  pet_friendly : Bool
  aceita_financiamento : Bool
  criado_em : Nat
  atualizado_em : Nat
  infraestrutura : List Int
deriving DecidableEq, Repr

/-- Modelled from the spec: a PriceEntry (PrecoPorFinalidade) row, restricted
to the fields the search core reads (owning listing, purpose, value). -/
structure PrecoPorFinalidade where
  pk : Int
  imovel : Int
  finalidade : String
  valor : ℚ
deriving DecidableEq, Repr

/-- Modelled from the spec: a Photo (FotoImovel) row; the search core only
tests existence of photos for a listing. -/
structure FotoImovel where
  pk : Int
  imovel : Int
deriving DecidableEq, Repr

/-- Modelled from the spec: the entity store the query builder runs against
(the listing table plus the two related tables the filters join). -/
structure Store where
  imoveis : List Imovel
  precos : List PrecoPorFinalidade
  fotos : List FotoImovel
deriving DecidableEq, Repr

/-- Raw GET parameters of a search request, one optional raw string per facet
key of views.py, plus the multi-valued infraestrutura list (getlist). -/
structure HttpRequest where
  busca : Option String
  finalidade : Option String
  tipo : Option String
  cidade : Option String
  bairro : Option String
  quartos : Option String
  banheiros : Option String
  vagas : Option String
  area_min : Option String
  preco_min : Option String
  preco_max : Option String
  mobilia : Option String
  pet_friendly : Option String
  financiamento : Option String
  com_fotos : Option String
  ordenacao : Option String
  page : Option String
  infraestrutura : List String
deriving DecidableEq, Repr

/-- Decimal value of a digit list (most significant first). -/
def digitsVal (cs : List Char) : Nat :=
  cs.foldl (fun acc c => 10 * acc + (c.toNat - 48)) 0

/-- True when the character list is a nonempty run of ASCII digits. -/
def allDigits (cs : List Char) : Bool :=
  !cs.isEmpty && cs.all Char.isDigit

/-- Model of Python int() on a trimmed character list: optional sign followed
by a nonempty digit run. -/
def pyParseIntCore (cs : List Char) : Option Int :=
  match cs with
  | '+' :: rest => if allDigits rest then some ((digitsVal rest : Nat) : Int) else none
  | '-' :: rest => if allDigits rest then some (-((digitsVal rest : Nat) : Int)) else none
  | _ => if allDigits cs then some ((digitsVal cs : Nat) : Int) else none

/-- Characters Python str.strip removes (ASCII whitespace). -/
def trimChars (cs : List Char) : List Char :=
  ((cs.dropWhile Char.isWhitespace).reverse.dropWhile Char.isWhitespace).reverse

/-- Lower-cased characters of a string (ASCII case folding, the case
insensitivity the iexact and icontains lookups provide). -/
def lowerChars (s : String) : List Char :=
  s.toList.map Char.toLower

/-- Model of Python int(str): strip surrounding whitespace, then an optional
sign and a nonempty digit run; anything else fails. -/
def pyParseInt (s : String) : Option Int :=
  pyParseIntCore (trimChars s.toList)

/-- Model of the unsigned part of Python float(str): digits with an optional
single decimal point, at least one digit overall. -/
def pyParseFracCore (cs : List Char) : Option ℚ :=
  let ip := cs.takeWhile (fun c => c != '.')
  let rest := cs.dropWhile (fun c => c != '.')
  match rest with
  | [] => if allDigits ip then some ((digitsVal ip : Nat) : ℚ) else none
  | _ :: fp =>
    if ip.all Char.isDigit && fp.all Char.isDigit && (!ip.isEmpty || !fp.isEmpty) then
      some (((digitsVal ip : Nat) : ℚ) + ((digitsVal fp : Nat) : ℚ) / ((10 : ℚ) ^ fp.length))
    else none

/-- Model of Python float(str): strip surrounding whitespace, optional sign,
then digits with an optional decimal point.  Values are exact rationals. -/
def pyParseFloat (s : String) : Option ℚ :=
  match trimChars s.toList with
  | '+' :: rest => pyParseFracCore rest
  | '-' :: rest => (pyParseFracCore rest).map (fun x => -x)
  | cs => pyParseFracCore cs

/-- Whether the first character list is an initial segment of the second. -/
def prefixTest : List Char → List Char → Bool
  | [], _ => true
  | _ :: _, [] => false
  | a :: as, b :: bs => a == b && prefixTest as bs

/-- Whether the first character list occurs contiguously in the second. -/
def infixTest (needle : List Char) : List Char → Bool
  | [] => prefixTest needle []
  | b :: bs => prefixTest needle (b :: bs) || infixTest needle bs

/-- Case-insensitive substring test, the Django icontains lookup. -/
def icontains (hay needle : String) : Bool :=
  infixTest (lowerChars needle) (lowerChars hay)

/-- The stripped free-text parameter: views.py reads busca with default
empty string and strips it before use. -/
def buscaStr (o : Option String) : String :=
  String.mk (trimChars (o.getD "").toList)

/-- Free-text match of views.py line 45: the text occurs case-insensitively
in the title, address, district, city or description. -/
def buscaMatch (b : String) (i : Imovel) : Bool :=
  icontains i.titulo b || icontains i.endereco b || icontains i.bairro b ||
    icontains i.cidade b || icontains i.descricao b

/-- Whether a price row belongs to a listing. -/
def precoOf (i : Imovel) (p : PrecoPorFinalidade) : Bool :=
  decide (p.imovel = i.pk)

/-- Base queryset of views.py line 33: only listings with status ativo. -/
def activeImoveis (db : Store) : List Imovel :=
  db.imoveis.filter (fun i => decide (i.status = StatusImovel.ativo))

/-- Free-text filter step (views.py lines 43-51). -/
def applyBusca (raw : Option String) (l : List Imovel) : List Imovel :=
  let b := buscaStr raw
  if b = "" then l else l.filter (buscaMatch b)

/-- Purpose filter step (views.py lines 54-56): keep listings with at least
one price row of the requested purpose. -/
def applyFinalidade (db : Store) (raw : Option String) (l : List Imovel) : List Imovel :=
  match raw with
  | some f =>
    if f = "" then l
    else l.filter (fun i => db.precos.any (fun p => precoOf i p && decide (p.finalidade = f)))
  | none => l

/-- Property-type filter step (views.py lines 59-61): exact match. -/
def applyTipo (raw : Option String) (l : List Imovel) : List Imovel :=
  match raw with
  | some t => if t = "" then l else l.filter (fun i => decide (i.tipo = t))
  | none => l

/-- City filter step (views.py lines 64-66): case-insensitive exact match. -/
def applyCidade (raw : Option String) (l : List Imovel) : List Imovel :=
  match raw with
  | some c => if c = "" then l else l.filter (fun i => decide (lowerChars i.cidade = lowerChars c))
  | none => l

/-- District filter step (views.py lines 69-71): case-insensitive substring. -/
def applyBairro (raw : Option String) (l : List Imovel) : List Imovel :=
  match raw with
  | some b => if b = "" then l else l.filter (fun i => icontains i.bairro b)
  | none => l

/-- The try/int()/except-pass pattern of views.py: when the raw parameter is
present and parses, filter by the resulting predicate; a missing or
unparsable value leaves the queryset untouched. -/
def parseFilter {β : Type} (parse : String → Option β) (pred : β → Imovel → Bool)
    (raw : Option String) (l : List Imovel) : List Imovel :=
  match raw with
  | some s =>
    match parse s with
    | some x => l.filter (pred x)
    | none => l
  | none => l

/-- Minimum-rooms filter step (views.py lines 74-79): applied only when the
raw value parses as an int, silently skipped otherwise. -/
def applyQuartos (raw : Option String) (l : List Imovel) : List Imovel :=
  parseFilter pyParseInt (fun n i => decide (n ≤ (i.quartos : Int))) raw l

/-- Minimum-bathrooms filter step (views.py lines 82-87). -/
def applyBanheiros (raw : Option String) (l : List Imovel) : List Imovel :=
  parseFilter pyParseInt (fun n i => decide (n ≤ (i.banheiros : Int))) raw l

/-- Minimum-parking filter step (views.py lines 90-95). -/
def applyVagas (raw : Option String) (l : List Imovel) : List Imovel :=
  parseFilter pyParseInt (fun n i => decide (n ≤ (i.vagas_garagem : Int))) raw l

/-- Minimum-area filter step (views.py lines 98-103). -/
def applyAreaMin (raw : Option String) (l : List Imovel) : List Imovel :=
  parseFilter pyParseFloat (fun x i => decide (x ≤ i.area_util)) raw l

/-- Minimum-price filter step (views.py lines 109-113): an independent join,
so the condition is existence of some price row with value at least the
bound. -/
def applyPrecoMin (db : Store) (raw : Option String) (l : List Imovel) : List Imovel :=
  parseFilter pyParseFloat
    (fun x i => db.precos.any (fun p => precoOf i p && decide (x ≤ p.valor))) raw l

/-- Maximum-price filter step (views.py lines 115-119): a second independent
join on the price table. -/
def applyPrecoMax (db : Store) (raw : Option String) (l : List Imovel) : List Imovel :=
  parseFilter pyParseFloat
    (fun x i => db.precos.any (fun p => precoOf i p && decide (p.valor ≤ x))) raw l

/-- Furnished-state filter step (views.py lines 122-124): exact match. -/
def applyMobilia (raw : Option String) (l : List Imovel) : List Imovel :=
  match raw with
  | some m => if m = "" then l else l.filter (fun i => decide (i.mobilia = m))
  | none => l

/-- Pet-friendly filter step (views.py lines 127-129): applied exactly when
the raw value is the string true. -/
def applyPetFriendly (raw : Option String) (l : List Imovel) : List Imovel :=
  if raw = some "true" then l.filter (fun i => i.pet_friendly) else l

/-- Accepts-financing filter step (views.py lines 132-134). -/
def applyFinanciamento (raw : Option String) (l : List Imovel) : List Imovel :=
  if raw = some "true" then l.filter (fun i => i.aceita_financiamento) else l

/-- Has-photos filter step (views.py lines 137-139): a join on the photo
table, so the condition is existence of a photo row. -/
def applyComFotos (db : Store) (raw : Option String) (l : List Imovel) : List Imovel :=
  if raw = some "true" then
    l.filter (fun i => db.fotos.any (fun f => decide (f.imovel = i.pk)))
  else l

/-- Amenity filter steps (views.py lines 142-148): one filter per requested
identifier, each applied only when the identifier parses as an int, so a
listing must carry every parseable requested amenity. -/
def applyInfra (ids : List String) (l : List Imovel) : List Imovel :=
  ids.foldl
    (fun acc s =>
      match pyParseInt s with
      | some n => acc.filter (fun i => decide (n ∈ i.infraestrutura))
      | none => acc)
    l

/-- The full filter chain of views.py lines 33-148, in source order. -/
def filteredImoveis (db : Store) (req : HttpRequest) : List Imovel :=
  applyInfra req.infraestrutura
    (applyComFotos db req.com_fotos
      (applyFinanciamento req.financiamento
        (applyPetFriendly req.pet_friendly
          (applyMobilia req.mobilia
            (applyPrecoMax db req.preco_max
              (applyPrecoMin db req.preco_min
                (applyAreaMin req.area_min
                  (applyVagas req.vagas
                    (applyBanheiros req.banheiros
                      (applyQuartos req.quartos
                        (applyBairro req.bairro
                          (applyCidade req.cidade
                            (applyTipo req.tipo
                              (applyFinalidade db req.finalidade
                                (applyBusca req.busca
                                  (activeImoveis db))))))))))))))))

/-- Reified condition a join on the price table carries (the purpose filter
and the two price-bound filters each contribute one). -/
inductive PriceCond where
  | finalidadeEq (f : String)
  | valorGe (x : ℚ)
  | valorLe (x : ℚ)
deriving DecidableEq, Repr

/-- Evaluate a price-join condition on a price row. -/
def priceCondHolds : PriceCond → PrecoPorFinalidade → Bool
  | PriceCond.finalidadeEq f, p => decide (p.finalidade = f)
  | PriceCond.valorGe x, p => decide (x ≤ p.valor)
  | PriceCond.valorLe x, p => decide (p.valor ≤ x)

/-- The price join the finalidade filter creates, when it is applied.  The
filter steps create their joins in source order (finalidade at views.py
line 56, preco_min at line 111, preco_max at line 117) and a join exists
only when its filter was actually applied. -/
def priceCondFin (fin : Option String) : List PriceCond :=
  match fin with
  | some f => if f = "" then [] else [PriceCond.finalidadeEq f]
  | none => []

/-- The price join the preco_min filter creates, when it is applied. -/
def priceCondMin (pmin : Option String) : List PriceCond :=
  match pmin with
  | some s =>
    match pyParseFloat s with
    | some x => [PriceCond.valorGe x]
    | none => []
  | none => []

/-- The price join the preco_max filter creates, when it is applied. -/
def priceCondMax (pmax : Option String) : List PriceCond :=
  match pmax with
  | some s =>
    match pyParseFloat s with
    | some x => [PriceCond.valorLe x]
    | none => []
  | none => []

/-- All price-table joins, in creation order. -/
def priceConds (fin pmin pmax : Option String) : List PriceCond :=
  priceCondFin fin ++ priceCondMin pmin ++ priceCondMax pmax

/-- Keep the first occurrence of every element, dropping later repeats
(helper for the SQL DISTINCT over projected rows). -/
def firstDedupAux [DecidableEq α] (seen : List α) : List α → List α
  | [] => []
  | a :: as => if a ∈ seen then firstDedupAux seen as else a :: firstDedupAux (a :: seen) as

/-- First-occurrence deduplication of a list. -/
def firstDedup [DecidableEq α] (l : List α) : List α :=
  firstDedupAux [] l

/-- The distinct ordering-key values a listing contributes when the result is
ordered by precos__valor: the values of its price rows satisfying the first
price-join condition when such a join exists (Django reuses that join for the
ordering), otherwise the values of all its price rows, with a NULL key when
it has none (the ordering then brings its own outer join). -/
def orderVals (db : Store) (conds : List PriceCond) (i : Imovel) : List (Option ℚ) :=
  match conds.head? with
  | some c =>
    firstDedup ((db.precos.filter (fun p => precoOf i p && priceCondHolds c p)).map
      (fun p => some p.valor))
  | none =>
    let vs := (db.precos.filter (precoOf i)).map (fun p => (some p.valor : Option ℚ))
    if vs.isEmpty then [none] else firstDedup vs

/-- Comparison on optional price keys: NULL sorts below every value (the
SQLite placement, NULLs first ascending and last descending). -/
def optQLe : Option ℚ → Option ℚ → Bool
  | none, _ => true
  | some _, none => false
  | some a, some b => decide (a ≤ b)

/-- Insert an element into a list in front of the first entry it compares
at-or-below, keeping earlier elements first among ties. -/
def insertLe (le : α → α → Bool) (a : α) : List α → List α
  | [] => [a]
  | b :: bs => if le a b then a :: b :: bs else b :: insertLe le a bs

/-- Stable insertion sort by a boolean comparison. -/
def insertionSort (le : α → α → Bool) : List α → List α
  | [] => []
  | a :: as => insertLe le a (insertionSort le as)

/-- Relevance comparison (views.py line 161): creation timestamp descending,
update timestamp descending as tie-break. -/
def relevLe (a b : Imovel) : Bool :=
  decide (b.criado_em < a.criado_em) ||
    (decide (a.criado_em = b.criado_em) && decide (b.atualizado_em ≤ a.atualizado_em))

/-- Normalized sort order (views.py lines 151-162): one of the four explicit
values is kept, anything else falls back to relevancia. -/
def ordenacaoNorm (o : Option String) : String :=
  let s := o.getD "relevancia"
  if s = "preco_menor" then s
  else if s = "preco_maior" then s
  else if s = "mais_recentes" then s
  else if s = "maior_area" then s
  else "relevancia"

/-- The joined rows a price-ordered query produces, one per matching listing
and distinct ordering-key value, in store order before sorting. -/
def pricePairs (db : Store) (conds : List PriceCond) (ms : List Imovel) :
    List (Imovel × Option ℚ) :=
  ms.flatMap (fun i => (orderVals db conds i).map (fun v => (i, v)))

/-- The ordered, distinct result rows for a normalized sort order, a list of
price-join conditions and a list of matching listings.  Orderings on listing
attributes yield each matching listing once; the price orderings select the
related valor column, so a listing appears once per distinct ordering-key
value that survives SELECT DISTINCT. -/
def resultRowsOf (db : Store) (o : String) (conds : List PriceCond) (ms : List Imovel) :
    List Imovel :=
  if o = "preco_menor" then
    (insertionSort (fun a b => optQLe a.2 b.2) (pricePairs db conds ms)).map Prod.fst
  else if o = "preco_maior" then
    (insertionSort (fun a b => optQLe b.2 a.2) (pricePairs db conds ms)).map Prod.fst
  else if o = "mais_recentes" then
    insertionSort (fun a b => decide (b.criado_em ≤ a.criado_em)) ms
  else if o = "maior_area" then
    insertionSort (fun a b => decide (b.area_util ≤ a.area_util)) ms
  else
    insertionSort relevLe ms

/-- The ordered, distinct result rows of the query (views.py lines 150-165),
before pagination. -/
def resultRows (db : Store) (req : HttpRequest) : List Imovel :=
  resultRowsOf db (ordenacaoNorm req.ordenacao)
    (priceConds req.finalidade req.preco_min req.preco_max)
    (filteredImoveis db req)

/-- Page number the Django paginator settles on (get_page): an unparsable or
absent page parameter becomes 1, a number below 1 or beyond the last page
becomes the last page. -/
def pageNumberOf (raw : Option String) (numPages : Nat) : Nat :=
  match raw with
  | none => 1
  | some s =>
    match pyParseInt s with
    | none => 1
    | some n => if n < 1 then numPages else if (numPages : Int) < n then numPages else n.toNat

/-- Number of pages of the Django paginator: the ceiling of count over the
fixed page size 12, at least one page. -/
def numPagesOf (count : Nat) : Nat :=
  (max 1 count + 11) / 12

/-- Echo of the applied filters (views.py lines 191-209): the raw parameter
values, the stripped free text, and the normalized sort order. -/
structure FiltrosAplicados where
  busca : String
  finalidade : Option String
  tipo : Option String
  cidade : Option String
  bairro : Option String
  quartos : Option String
  banheiros : Option String
  vagas : Option String
  area_min : Option String
  preco_min : Option String
  preco_max : Option String
  mobilia : Option String
  pet_friendly : Option String
  financiamento : Option String
  com_fotos : Option String
  infraestrutura : List String
  ordenacao : String
deriving DecidableEq, Repr

/-- The observable output of the search view: the page of listings, the
total count the paginator reports, the page arithmetic, and the echoed
filter state. -/
structure SearchResult where
  pageListings : List Imovel
  totalCount : Nat
  numPages : Nat
  pageNumber : Nat
  filtros : FiltrosAplicados
deriving DecidableEq, Repr

/-- The search view lista_imoveis (views.py lines 31-212): filter chain,
ordering with SELECT DISTINCT, pagination with page size 12, and the echoed
filter state.  The total count is the distinct-listing count (the paginator
count query drops the ordering and with it the joined valor column). -/
def lista_imoveis (db : Store) (req : HttpRequest) : SearchResult :=
  let rows := resultRows db req
  let count := (filteredImoveis db req).length
  let np := numPagesOf count
  let pn := pageNumberOf req.page np
  { pageListings := (rows.drop ((pn - 1) * 12)).take 12
    totalCount := count
    numPages := np
    pageNumber := pn
    filtros :=
      { busca := buscaStr req.busca
        finalidade := req.finalidade
        tipo := req.tipo
        cidade := req.cidade
        bairro := req.bairro
        quartos := req.quartos
        banheiros := req.banheiros
        vagas := req.vagas
        area_min := req.area_min
        preco_min := req.preco_min
        preco_max := req.preco_max
        mobilia := req.mobilia
        pet_friendly := req.pet_friendly
        financiamento := req.financiamento
        com_fotos := req.com_fotos
        infraestrutura := req.infraestrutura
        ordenacao := ordenacaoNorm req.ordenacao } }

/-- Outcome of the detail view: not found, the unique active listing, or the
impossible multiple-rows case of a malformed store. -/
inductive DetalheResult where
  | notFound
  | found (i : Imovel)
  | multiple
deriving DecidableEq, Repr

/-- Match condition of the detail lookup: the requested primary key and
status ativo (the two keyword filters of get_object_or_404). -/
def detalhePred (pk : Int) (i : Imovel) : Bool :=
  decide (i.pk = pk ∧ i.status = StatusImovel.ativo)

/-- The detail view detalhe_imovel (views.py lines 215-223): look up the
listing by primary key restricted to status ativo; no match raises Http404
(notFound), a unique match is returned. -/
def detalhe_imovel (db : Store) (pk : Int) : DetalheResult :=
  match db.imoveis.filter (detalhePred pk) with
  | [] => DetalheResult.notFound
  | [i] => DetalheResult.found i
  | _ :: _ :: _ => DetalheResult.multiple

theorem mem_insertLe (le : α → α → Bool) (a x : α) (l : List α) :
    x ∈ insertLe le a l ↔ x = a ∨ x ∈ l := by
  induction l with
  | nil => simp [insertLe]
  | cons b bs ih =>
    simp only [insertLe]
    split
    · simp
    · simp only [List.mem_cons, ih]
      tauto

theorem mem_insertionSort (le : α → α → Bool) (x : α) (l : List α) :
    x ∈ insertionSort le l ↔ x ∈ l := by
  induction l with
  | nil => simp [insertionSort]
  | cons a as ih => simp [insertionSort, mem_insertLe, ih]

theorem applyBusca_sublist (raw : Option String) (l : List Imovel) :
    List.Sublist (applyBusca raw l) l := by
  unfold applyBusca
  by_cases h : buscaStr raw = ""
  · simp [h]
  · simp only [h, if_neg, not_false_iff]
    exact List.filter_sublist l

theorem mem_applyBusca (raw : Option String) (l : List Imovel) (i : Imovel) :
    i ∈ applyBusca raw l ↔
      i ∈ l ∧ (buscaStr raw ≠ "" → buscaMatch (buscaStr raw) i = true) := by
  unfold applyBusca
  by_cases h : buscaStr raw = ""
  · simp [h]
  · simp [h, List.mem_filter]

theorem applyFinalidade_sublist (db : Store) (raw : Option String) (l : List Imovel) :
    List.Sublist (applyFinalidade db raw l) l := by
  unfold applyFinalidade
  cases raw with
  | none => exact List.Sublist.refl l
  | some f =>
    by_cases h : f = ""
    · simp [h]
    · simp only [h, if_neg, not_false_iff]
      exact List.filter_sublist l

theorem mem_applyFinalidade (db : Store) (raw : Option String) (l : List Imovel) (i : Imovel) :
    i ∈ applyFinalidade db raw l ↔
      i ∈ l ∧ (∀ f, raw = some f → f ≠ "" →
        ∃ p ∈ db.precos, p.imovel = i.pk ∧ p.finalidade = f) := by
  unfold applyFinalidade
  cases raw with
  | none => simp
  | some f =>
    by_cases h : f = ""
    · simp [h]
    · simp [h, List.mem_filter, List.any_eq_true, precoOf, and_assoc]

theorem applyTipo_sublist (raw : Option String) (l : List Imovel) :
    List.Sublist (applyTipo raw l) l := by
  unfold applyTipo
  cases raw with
  | none => exact List.Sublist.refl l
  | some t =>
    by_cases h : t = ""
    · simp [h]
    · simp only [h, if_neg, not_false_iff]
      exact List.filter_sublist l

theorem mem_applyTipo (raw : Option String) (l : List Imovel) (i : Imovel) :
    i ∈ applyTipo raw l ↔ i ∈ l ∧ (∀ t, raw = some t → t ≠ "" → i.tipo = t) := by
  unfold applyTipo
  cases raw with
  | none => simp
  | some t =>
    by_cases h : t = ""
    · simp [h]
    · simp [h, List.mem_filter]

theorem applyCidade_sublist (raw : Option String) (l : List Imovel) :
    List.Sublist (applyCidade raw l) l := by
  unfold applyCidade
  cases raw with
  | none => exact List.Sublist.refl l
  | some c =>
    by_cases h : c = ""
    · simp [h]
    · simp only [h, if_neg, not_false_iff]
      exact List.filter_sublist l

theorem mem_applyCidade (raw : Option String) (l : List Imovel) (i : Imovel) :
    i ∈ applyCidade raw l ↔
      i ∈ l ∧ (∀ c, raw = some c → c ≠ "" → lowerChars i.cidade = lowerChars c) := by
  unfold applyCidade
  cases raw with
  | none => simp
  | some c =>
    by_cases h : c = ""
    · simp [h]
    · simp [h, List.mem_filter]

theorem applyBairro_sublist (raw : Option String) (l : List Imovel) :
    List.Sublist (applyBairro raw l) l := by
  unfold applyBairro
  cases raw with
  | none => exact List.Sublist.refl l
  | some b =>
    by_cases h : b = ""
    · simp [h]
    · simp only [h, if_neg, not_false_iff]
      exact List.filter_sublist l

theorem mem_applyBairro (raw : Option String) (l : List Imovel) (i : Imovel) :
    i ∈ applyBairro raw l ↔
      i ∈ l ∧ (∀ b, raw = some b → b ≠ "" → icontains i.bairro b = true) := by
  unfold applyBairro
  cases raw with
  | none => simp
  | some b =>
    by_cases h : b = ""
    · simp [h]
    · simp [h, List.mem_filter]

theorem parseFilter_sublist {β : Type} (parse : String → Option β)
    (pred : β → Imovel → Bool) (raw : Option String) (l : List Imovel) :
    List.Sublist (parseFilter parse pred raw l) l := by
  unfold parseFilter
  cases raw with
  | none => exact List.Sublist.refl l
  | some s =>
    show List.Sublist
      (match parse s with
        | some x => l.filter (pred x)
        | none => l) l
    cases parse s with
    | none => exact List.Sublist.refl l
    | some x => exact List.filter_sublist l

theorem mem_parseFilter {β : Type} (parse : String → Option β)
    (pred : β → Imovel → Bool) (raw : Option String) (l : List Imovel) (i : Imovel) :
    i ∈ parseFilter parse pred raw l ↔
      i ∈ l ∧ ∀ s x, raw = some s → parse s = some x → pred x i = true := by
  unfold parseFilter
  cases raw with
  | none => simp
  | some s =>
    show i ∈ (match parse s with
        | some x => l.filter (pred x)
        | none => l) ↔ _
    cases hp : parse s with
    | none =>
      constructor
      · intro hi
        refine ⟨hi, ?_⟩
        intro s1 x hs hx
        injection hs with hs1
        subst hs1
        rw [hp] at hx
        cases hx
      · intro h
        exact h.1
    | some x =>
      rw [List.mem_filter]
      constructor
      · rintro ⟨hi, hx⟩
        refine ⟨hi, ?_⟩
        intro s1 y hs hy
        injection hs with hs1
        subst hs1
        rw [hp] at hy
        injection hy with hy1
        subst hy1
        exact hx
      · rintro ⟨hi, hall⟩
        exact ⟨hi, hall s x rfl hp⟩

theorem applyQuartos_sublist (raw : Option String) (l : List Imovel) :
    List.Sublist (applyQuartos raw l) l := by
  unfold applyQuartos
  exact parseFilter_sublist pyParseInt (fun n i => decide (n ≤ (i.quartos : Int))) raw l

theorem mem_applyQuartos (raw : Option String) (l : List Imovel) (i : Imovel) :
    i ∈ applyQuartos raw l ↔
      i ∈ l ∧ (∀ s n, raw = some s → pyParseInt s = some n → n ≤ (i.quartos : Int)) := by
  unfold applyQuartos
  simpa using
    mem_parseFilter pyParseInt (fun n j => decide (n ≤ (j.quartos : Int))) raw l i

theorem applyBanheiros_sublist (raw : Option String) (l : List Imovel) :
    List.Sublist (applyBanheiros raw l) l := by
  unfold applyBanheiros
  exact parseFilter_sublist pyParseInt (fun n i => decide (n ≤ (i.banheiros : Int))) raw l

theorem mem_applyBanheiros (raw : Option String) (l : List Imovel) (i : Imovel) :
    i ∈ applyBanheiros raw l ↔
      i ∈ l ∧ (∀ s n, raw = some s → pyParseInt s = some n → n ≤ (i.banheiros : Int)) := by
  unfold applyBanheiros
  simpa using
    mem_parseFilter pyParseInt (fun n j => decide (n ≤ (j.banheiros : Int))) raw l i

theorem applyVagas_sublist (raw : Option String) (l : List Imovel) :
    List.Sublist (applyVagas raw l) l := by
  unfold applyVagas
  exact parseFilter_sublist pyParseInt (fun n i => decide (n ≤ (i.vagas_garagem : Int))) raw l

theorem mem_applyVagas (raw : Option String) (l : List Imovel) (i : Imovel) :
    i ∈ applyVagas raw l ↔
      i ∈ l ∧ (∀ s n, raw = some s → pyParseInt s = some n → n ≤ (i.vagas_garagem : Int)) := by
  unfold applyVagas
  simpa using
    mem_parseFilter pyParseInt (fun n j => decide (n ≤ (j.vagas_garagem : Int))) raw l i

theorem applyAreaMin_sublist (raw : Option String) (l : List Imovel) :
    List.Sublist (applyAreaMin raw l) l := by
  unfold applyAreaMin
  exact parseFilter_sublist pyParseFloat (fun x i => decide (x ≤ i.area_util)) raw l

theorem mem_applyAreaMin (raw : Option String) (l : List Imovel) (i : Imovel) :
    i ∈ applyAreaMin raw l ↔
      i ∈ l ∧ (∀ s x, raw = some s → pyParseFloat s = some x → x ≤ i.area_util) := by
  unfold applyAreaMin
  simpa using
    mem_parseFilter pyParseFloat (fun x j => decide (x ≤ j.area_util)) raw l i

theorem applyPrecoMin_sublist (db : Store) (raw : Option String) (l : List Imovel) :
    List.Sublist (applyPrecoMin db raw l) l := by
  unfold applyPrecoMin
  exact parseFilter_sublist pyParseFloat
    (fun x i => db.precos.any (fun p => precoOf i p && decide (x ≤ p.valor))) raw l

theorem mem_applyPrecoMin (db : Store) (raw : Option String) (l : List Imovel) (i : Imovel) :
    i ∈ applyPrecoMin db raw l ↔
      i ∈ l ∧ (∀ s x, raw = some s → pyParseFloat s = some x →
        ∃ p ∈ db.precos, p.imovel = i.pk ∧ x ≤ p.valor) := by
  unfold applyPrecoMin
  simpa [List.any_eq_true, precoOf, and_assoc] using
    mem_parseFilter pyParseFloat
      (fun x j => db.precos.any (fun p => precoOf j p && decide (x ≤ p.valor))) raw l i

theorem applyPrecoMax_sublist (db : Store) (raw : Option String) (l : List Imovel) :
    List.Sublist (applyPrecoMax db raw l) l := by
  unfold applyPrecoMax
  exact parseFilter_sublist pyParseFloat
    (fun x i => db.precos.any (fun p => precoOf i p && decide (p.valor ≤ x))) raw l

theorem mem_applyPrecoMax (db : Store) (raw : Option String) (l : List Imovel) (i : Imovel) :
    i ∈ applyPrecoMax db raw l ↔
      i ∈ l ∧ (∀ s x, raw = some s → pyParseFloat s = some x →
        ∃ p ∈ db.precos, p.imovel = i.pk ∧ p.valor ≤ x) := by
  unfold applyPrecoMax
  simpa [List.any_eq_true, precoOf, and_assoc] using
    mem_parseFilter pyParseFloat
      (fun x j => db.precos.any (fun p => precoOf j p && decide (p.valor ≤ x))) raw l i

theorem applyMobilia_sublist (raw : Option String) (l : List Imovel) :
    List.Sublist (applyMobilia raw l) l := by
  unfold applyMobilia
  cases raw with
  | none => exact List.Sublist.refl l
  | some m =>
    by_cases h : m = ""
    · simp [h]
    · simp only [h, if_neg, not_false_iff]
      exact List.filter_sublist l

theorem mem_applyMobilia (raw : Option String) (l : List Imovel) (i : Imovel) :
    i ∈ applyMobilia raw l ↔ i ∈ l ∧ (∀ m, raw = some m → m ≠ "" → i.mobilia = m) := by
  unfold applyMobilia
  cases raw with
  | none => simp
  | some m =>
    by_cases h : m = ""
    · simp [h]
    · simp [h, List.mem_filter]

theorem applyPetFriendly_sublist (raw : Option String) (l : List Imovel) :
    List.Sublist (applyPetFriendly raw l) l := by
  unfold applyPetFriendly
  by_cases h : raw = some "true"
  · simp only [h, if_pos]
    exact List.filter_sublist l
  · simp [h]

theorem mem_applyPetFriendly (raw : Option String) (l : List Imovel) (i : Imovel) :
    i ∈ applyPetFriendly raw l ↔
      i ∈ l ∧ (raw = some "true" → i.pet_friendly = true) := by
  unfold applyPetFriendly
  by_cases h : raw = some "true"
  · simp [h, List.mem_filter]
  · simp [h]

theorem applyFinanciamento_sublist (raw : Option String) (l : List Imovel) :
    List.Sublist (applyFinanciamento raw l) l := by
  unfold applyFinanciamento
  by_cases h : raw = some "true"
  · simp only [h, if_pos]
    exact List.filter_sublist l
  · simp [h]

theorem mem_applyFinanciamento (raw : Option String) (l : List Imovel) (i : Imovel) :
    i ∈ applyFinanciamento raw l ↔
      i ∈ l ∧ (raw = some "true" → i.aceita_financiamento = true) := by
  unfold applyFinanciamento
  by_cases h : raw = some "true"
  · simp [h, List.mem_filter]
  · simp [h]

theorem applyComFotos_sublist (db : Store) (raw : Option String) (l : List Imovel) :
    List.Sublist (applyComFotos db raw l) l := by
  unfold applyComFotos
  by_cases h : raw = some "true"
  · simp only [h, if_pos]
    exact List.filter_sublist l
  · simp [h]

theorem mem_applyComFotos (db : Store) (raw : Option String) (l : List Imovel) (i : Imovel) :
    i ∈ applyComFotos db raw l ↔
      i ∈ l ∧ (raw = some "true" → ∃ f ∈ db.fotos, f.imovel = i.pk) := by
  unfold applyComFotos
  by_cases h : raw = some "true"
  · simp [h, List.mem_filter, List.any_eq_true]
  · simp [h]

theorem applyInfra_cons (s : String) (rest : List String) (l : List Imovel) :
    applyInfra (s :: rest) l = applyInfra rest
      (match pyParseInt s with
        | some n => l.filter (fun i => decide (n ∈ i.infraestrutura))
        | none => l) := rfl

theorem applyInfra_sublist (ids : List String) :
    ∀ l : List Imovel, List.Sublist (applyInfra ids l) l := by
  induction ids with
  | nil => intro l; exact List.Sublist.refl l
  | cons s rest ih =>
    intro l
    rw [applyInfra_cons]
    cases hp : pyParseInt s with
    | none => exact ih l
    | some n => exact (ih _).trans (List.filter_sublist l)

theorem mem_applyInfra (ids : List String) :
    ∀ (l : List Imovel) (i : Imovel),
      i ∈ applyInfra ids l ↔
        i ∈ l ∧ ∀ s ∈ ids, ∀ n, pyParseInt s = some n → n ∈ i.infraestrutura := by
  induction ids with
  | nil => intro l i; simp [applyInfra]
  | cons s rest ih =>
    intro l i
    rw [applyInfra_cons]
    cases hp : pyParseInt s with
    | none =>
      rw [ih]
      simp only [List.forall_mem_cons]
      constructor
      · rintro ⟨hl, hrest⟩
        refine ⟨hl, ?_, hrest⟩
        intro n hn
        rw [hp] at hn
        cases hn
      · rintro ⟨hl, _, hrest⟩
        exact ⟨hl, hrest⟩
    | some n =>
      rw [ih, List.mem_filter]
      simp only [List.forall_mem_cons]
      constructor
      · rintro ⟨⟨hl, hn⟩, hrest⟩
        refine ⟨hl, ?_, hrest⟩
        intro m hm
        rw [hp] at hm
        injection hm with hm1
        subst hm1
        simpa using hn
      · rintro ⟨hl, hs, hrest⟩
        exact ⟨⟨hl, by simpa using hs n hp⟩, hrest⟩

theorem mem_activeImoveis (db : Store) (i : Imovel) :
    i ∈ activeImoveis db ↔ i ∈ db.imoveis ∧ i.status = StatusImovel.ativo := by
  simp [activeImoveis, List.mem_filter]

theorem filteredImoveis_sublist (db : Store) (req : HttpRequest) :
    List.Sublist (filteredImoveis db req) (activeImoveis db) := by
  unfold filteredImoveis
  exact ((((((((((((((((applyInfra_sublist req.infraestrutura _).trans
    (applyComFotos_sublist db req.com_fotos _)).trans
    (applyFinanciamento_sublist req.financiamento _)).trans
    (applyPetFriendly_sublist req.pet_friendly _)).trans
    (applyMobilia_sublist req.mobilia _)).trans
    (applyPrecoMax_sublist db req.preco_max _)).trans
    (applyPrecoMin_sublist db req.preco_min _)).trans
    (applyAreaMin_sublist req.area_min _)).trans
    (applyVagas_sublist req.vagas _)).trans
    (applyBanheiros_sublist req.banheiros _)).trans
    (applyQuartos_sublist req.quartos _)).trans
    (applyBairro_sublist req.bairro _)).trans
    (applyCidade_sublist req.cidade _)).trans
    (applyTipo_sublist req.tipo _)).trans
    (applyFinalidade_sublist db req.finalidade _)).trans
    (applyBusca_sublist req.busca _))

theorem length_filteredImoveis_le (db : Store) (req : HttpRequest) :
    (filteredImoveis db req).length ≤ (activeImoveis db).length :=
  (filteredImoveis_sublist db req).length_le

theorem mem_pricePairs (db : Store) (conds : List PriceCond) (ms : List Imovel)
    (x : Imovel × Option ℚ) (h : x ∈ pricePairs db conds ms) : x.1 ∈ ms := by
  unfold pricePairs at h
  rcases List.mem_flatMap.1 h with ⟨j, hj, hx⟩
  rcases List.mem_map.1 hx with ⟨v, _, heq⟩
  rw [← heq]
  exact hj

theorem mem_resultRowsOf (db : Store) (o : String) (conds : List PriceCond)
    (ms : List Imovel) (i : Imovel) (h : i ∈ resultRowsOf db o conds ms) : i ∈ ms := by
  unfold resultRowsOf at h
  split_ifs at h with h1 h2 h3 h4
  · rcases List.mem_map.1 h with ⟨pair, hmem, heq⟩
    rw [mem_insertionSort] at hmem
    rw [← heq]
    exact mem_pricePairs db conds ms pair hmem
  · rcases List.mem_map.1 h with ⟨pair, hmem, heq⟩
    rw [mem_insertionSort] at hmem
    rw [← heq]
    exact mem_pricePairs db conds ms pair hmem
  · rwa [mem_insertionSort] at h
  · rwa [mem_insertionSort] at h
  · rwa [mem_insertionSort] at h

theorem mem_resultRows (db : Store) (req : HttpRequest) (i : Imovel)
    (h : i ∈ resultRows db req) : i ∈ filteredImoveis db req :=
  mem_resultRowsOf db _ _ _ i h

theorem pageListings_eq (db : Store) (req : HttpRequest) :
    (lista_imoveis db req).pageListings =
      ((resultRows db req).drop
        ((pageNumberOf req.page (numPagesOf (filteredImoveis db req).length) - 1) * 12)).take
        12 := rfl

theorem totalCount_eq (db : Store) (req : HttpRequest) :
    (lista_imoveis db req).totalCount = (filteredImoveis db req).length := rfl

theorem numPages_eq (db : Store) (req : HttpRequest) :
    (lista_imoveis db req).numPages = numPagesOf (filteredImoveis db req).length := rfl

theorem pageNumber_eq (db : Store) (req : HttpRequest) :
    (lista_imoveis db req).pageNumber =
      pageNumberOf req.page (numPagesOf (filteredImoveis db req).length) := rfl

theorem filtros_ordenacao_eq (db : Store) (req : HttpRequest) :
    (lista_imoveis db req).filtros.ordenacao = ordenacaoNorm req.ordenacao := rfl

theorem mem_pageListings (db : Store) (req : HttpRequest) (i : Imovel)
    (h : i ∈ (lista_imoveis db req).pageListings) : i ∈ resultRows db req := by
  rw [pageListings_eq] at h
  exact List.drop_subset _ _ (List.take_subset _ _ h)

theorem mem_pageListings_filtered (db : Store) (req : HttpRequest) (i : Imovel)
    (h : i ∈ (lista_imoveis db req).pageListings) : i ∈ filteredImoveis db req :=
  mem_resultRows db req i (mem_pageListings db req i h)

/-- Membership in the filter chain unpacked into one condition per facet of
views.py, in source order. -/
theorem mem_filteredImoveis (db : Store) (req : HttpRequest) (i : Imovel) :
    i ∈ filteredImoveis db req ↔
      i ∈ db.imoveis ∧ i.status = StatusImovel.ativo ∧
      (buscaStr req.busca ≠ "" → buscaMatch (buscaStr req.busca) i = true) ∧
      (∀ f, req.finalidade = some f → f ≠ "" →
        ∃ p ∈ db.precos, p.imovel = i.pk ∧ p.finalidade = f) ∧
      (∀ t, req.tipo = some t → t ≠ "" → i.tipo = t) ∧
      (∀ c, req.cidade = some c → c ≠ "" → lowerChars i.cidade = lowerChars c) ∧
      (∀ b, req.bairro = some b → b ≠ "" → icontains i.bairro b = true) ∧
      (∀ s n, req.quartos = some s → pyParseInt s = some n → n ≤ (i.quartos : Int)) ∧
      (∀ s n, req.banheiros = some s → pyParseInt s = some n → n ≤ (i.banheiros : Int)) ∧
      (∀ s n, req.vagas = some s → pyParseInt s = some n → n ≤ (i.vagas_garagem : Int)) ∧
      (∀ s x, req.area_min = some s → pyParseFloat s = some x → x ≤ i.area_util) ∧
      (∀ s x, req.preco_min = some s → pyParseFloat s = some x →
        ∃ p ∈ db.precos, p.imovel = i.pk ∧ x ≤ p.valor) ∧
      (∀ s x, req.preco_max = some s → pyParseFloat s = some x →
        ∃ p ∈ db.precos, p.imovel = i.pk ∧ p.valor ≤ x) ∧
      (∀ m, req.mobilia = some m → m ≠ "" → i.mobilia = m) ∧
      (req.pet_friendly = some "true" → i.pet_friendly = true) ∧
      (req.financiamento = some "true" → i.aceita_financiamento = true) ∧
      (req.com_fotos = some "true" → ∃ f ∈ db.fotos, f.imovel = i.pk) ∧
      (∀ s ∈ req.infraestrutura, ∀ n, pyParseInt s = some n → n ∈ i.infraestrutura) := by
  unfold filteredImoveis
  rw [mem_applyInfra, mem_applyComFotos, mem_applyFinanciamento, mem_applyPetFriendly,
    mem_applyMobilia, mem_applyPrecoMax, mem_applyPrecoMin, mem_applyAreaMin,
    mem_applyVagas, mem_applyBanheiros, mem_applyQuartos, mem_applyBairro,
    mem_applyCidade, mem_applyTipo, mem_applyFinalidade, mem_applyBusca,
    mem_activeImoveis]
  simp only [and_assoc]

/-- Observable outcome of a search: the page of listings plus the paginator
numbers, everything except the echoed raw filter state. -/
def searchOutcome (r : SearchResult) : List Imovel × Nat × Nat × Nat :=
  (r.pageListings, r.totalCount, r.numPages, r.pageNumber)

theorem parseFilter_none {β : Type} (parse : String → Option β)
    (pred : β → Imovel → Bool) (l : List Imovel) :
    parseFilter parse pred none l = l := rfl

theorem parseFilter_parseFail {β : Type} (parse : String → Option β)
    (pred : β → Imovel → Bool) (s : String) (hp : parse s = none) (l : List Imovel) :
    parseFilter parse pred (some s) l = l := by
  unfold parseFilter
  show (match parse s with
    | some x => l.filter (pred x)
    | none => l) = l
  rw [hp]

theorem applyQuartos_parseFail (s : String) (hp : pyParseInt s = none) (l : List Imovel) :
    applyQuartos (some s) l = l :=
  parseFilter_parseFail pyParseInt _ s hp l

theorem applyBanheiros_parseFail (s : String) (hp : pyParseInt s = none) (l : List Imovel) :
    applyBanheiros (some s) l = l :=
  parseFilter_parseFail pyParseInt _ s hp l

theorem applyVagas_parseFail (s : String) (hp : pyParseInt s = none) (l : List Imovel) :
    applyVagas (some s) l = l :=
  parseFilter_parseFail pyParseInt _ s hp l

theorem applyAreaMin_parseFail (s : String) (hp : pyParseFloat s = none) (l : List Imovel) :
    applyAreaMin (some s) l = l :=
  parseFilter_parseFail pyParseFloat _ s hp l

theorem applyPrecoMin_parseFail (db : Store) (s : String) (hp : pyParseFloat s = none)
    (l : List Imovel) : applyPrecoMin db (some s) l = l :=
  parseFilter_parseFail pyParseFloat _ s hp l

theorem applyPrecoMax_parseFail (db : Store) (s : String) (hp : pyParseFloat s = none)
    (l : List Imovel) : applyPrecoMax db (some s) l = l :=
  parseFilter_parseFail pyParseFloat _ s hp l

theorem priceCondMin_parseFail (s : String) (hp : pyParseFloat s = none) :
    priceCondMin (some s) = priceCondMin none := by
  unfold priceCondMin
  show (match pyParseFloat s with
    | some x => [PriceCond.valorGe x]
    | none => ([] : List PriceCond)) = []
  rw [hp]

theorem priceCondMax_parseFail (s : String) (hp : pyParseFloat s = none) :
    priceCondMax (some s) = priceCondMax none := by
  unfold priceCondMax
  show (match pyParseFloat s with
    | some x => [PriceCond.valorLe x]
    | none => ([] : List PriceCond)) = []
  rw [hp]

theorem applyInfra_cons_fail (s : String) (rest : List String) (l : List Imovel)
    (hp : pyParseInt s = none) : applyInfra (s :: rest) l = applyInfra rest l := by
  rw [applyInfra_cons, hp]

theorem applyInfra_append (a b : List String) (l : List Imovel) :
    applyInfra (a ++ b) l = applyInfra b (applyInfra a l) := by
  unfold applyInfra
  rw [List.foldl_append]

theorem applyInfra_splice_fail (a b : List String) (s : String) (l : List Imovel)
    (hp : pyParseInt s = none) :
    applyInfra (a ++ s :: b) l = applyInfra (a ++ b) l := by
  rw [applyInfra_append, applyInfra_cons_fail s b _ hp, ← applyInfra_append]

theorem ordenacaoNorm_default (s : String)
    (h1 : s ≠ "preco_menor") (h2 : s ≠ "preco_maior")
    (h3 : s ≠ "mais_recentes") (h4 : s ≠ "maior_area") :
    ordenacaoNorm (some s) = "relevancia" := by
  simp [ordenacaoNorm, h1, h2, h3, h4]

theorem ordenacaoNorm_relevancia : ordenacaoNorm (some "relevancia") = "relevancia" := by
  simp [ordenacaoNorm]

theorem applyPetFriendly_skip (s : String) (h : s ≠ "true") (l : List Imovel) :
    applyPetFriendly (some s) l = l := by
  unfold applyPetFriendly
  rw [if_neg]
  simp [h]

theorem applyFinanciamento_skip (s : String) (h : s ≠ "true") (l : List Imovel) :
    applyFinanciamento (some s) l = l := by
  unfold applyFinanciamento
  rw [if_neg]
  simp [h]

theorem applyComFotos_skip (db : Store) (s : String) (h : s ≠ "true") (l : List Imovel) :
    applyComFotos db (some s) l = l := by
  unfold applyComFotos
  rw [if_neg]
  simp [h]

theorem applyQuartos_none (l : List Imovel) : applyQuartos none l = l := rfl

theorem applyBanheiros_none (l : List Imovel) : applyBanheiros none l = l := rfl

theorem applyVagas_none (l : List Imovel) : applyVagas none l = l := rfl

theorem applyAreaMin_none (l : List Imovel) : applyAreaMin none l = l := rfl

theorem applyPrecoMin_none (db : Store) (l : List Imovel) : applyPrecoMin db none l = l := rfl

theorem applyPrecoMax_none (db : Store) (l : List Imovel) : applyPrecoMax db none l = l := rfl

theorem applyPetFriendly_none (l : List Imovel) : applyPetFriendly none l = l := rfl

theorem applyFinanciamento_none (l : List Imovel) : applyFinanciamento none l = l := rfl

theorem applyComFotos_none (db : Store) (l : List Imovel) : applyComFotos db none l = l := rfl

theorem searchOutcome_quartos_parseFail (db : Store) (req : HttpRequest) (s : String)
    (h : req.quartos = some s) (hp : pyParseInt s = none) :
    searchOutcome (lista_imoveis db req) =
      searchOutcome (lista_imoveis db {req with quartos := none}) := by
  cases req with
  | mk b1 b2 b3 b4 b5 b6 b7 b8 b9 b10 b11 b12 b13 b14 b15 b16 b17 b18 =>
    cases h
    simp only [searchOutcome, lista_imoveis, resultRows, filteredImoveis]
    rw [applyQuartos_parseFail s hp, applyQuartos_none]

theorem searchOutcome_banheiros_parseFail (db : Store) (req : HttpRequest) (s : String)
    (h : req.banheiros = some s) (hp : pyParseInt s = none) :
    searchOutcome (lista_imoveis db req) =
      searchOutcome (lista_imoveis db {req with banheiros := none}) := by
  cases req with
  | mk b1 b2 b3 b4 b5 b6 b7 b8 b9 b10 b11 b12 b13 b14 b15 b16 b17 b18 =>
    cases h
    simp only [searchOutcome, lista_imoveis, resultRows, filteredImoveis]
    rw [applyBanheiros_parseFail s hp, applyBanheiros_none]

theorem searchOutcome_vagas_parseFail (db : Store) (req : HttpRequest) (s : String)
    (h : req.vagas = some s) (hp : pyParseInt s = none) :
    searchOutcome (lista_imoveis db req) =
      searchOutcome (lista_imoveis db {req with vagas := none}) := by
  cases req with
  | mk b1 b2 b3 b4 b5 b6 b7 b8 b9 b10 b11 b12 b13 b14 b15 b16 b17 b18 =>
    cases h
    simp only [searchOutcome, lista_imoveis, resultRows, filteredImoveis]
    rw [applyVagas_parseFail s hp, applyVagas_none]

theorem searchOutcome_area_parseFail (db : Store) (req : HttpRequest) (s : String)
    (h : req.area_min = some s) (hp : pyParseFloat s = none) :
    searchOutcome (lista_imoveis db req) =
      searchOutcome (lista_imoveis db {req with area_min := none}) := by
  cases req with
  | mk b1 b2 b3 b4 b5 b6 b7 b8 b9 b10 b11 b12 b13 b14 b15 b16 b17 b18 =>
    cases h
    simp only [searchOutcome, lista_imoveis, resultRows, filteredImoveis]
    rw [applyAreaMin_parseFail s hp, applyAreaMin_none]

theorem searchOutcome_precoMin_parseFail (db : Store) (req : HttpRequest) (s : String)
    (h : req.preco_min = some s) (hp : pyParseFloat s = none) :
    searchOutcome (lista_imoveis db req) =
      searchOutcome (lista_imoveis db {req with preco_min := none}) := by
  cases req with
  | mk b1 b2 b3 b4 b5 b6 b7 b8 b9 b10 b11 b12 b13 b14 b15 b16 b17 b18 =>
    cases h
    simp only [searchOutcome, lista_imoveis, resultRows, filteredImoveis, priceConds]
    rw [applyPrecoMin_parseFail db s hp, priceCondMin_parseFail s hp, applyPrecoMin_none]

theorem searchOutcome_precoMax_parseFail (db : Store) (req : HttpRequest) (s : String)
    (h : req.preco_max = some s) (hp : pyParseFloat s = none) :
    searchOutcome (lista_imoveis db req) =
      searchOutcome (lista_imoveis db {req with preco_max := none}) := by
  cases req with
  | mk b1 b2 b3 b4 b5 b6 b7 b8 b9 b10 b11 b12 b13 b14 b15 b16 b17 b18 =>
    cases h
    simp only [searchOutcome, lista_imoveis, resultRows, filteredImoveis, priceConds]
    rw [applyPrecoMax_parseFail db s hp, priceCondMax_parseFail s hp, applyPrecoMax_none]

theorem searchOutcome_infra_parseFail (db : Store) (req : HttpRequest)
    (a b : List String) (s : String)
    (h : req.infraestrutura = a ++ s :: b) (hp : pyParseInt s = none) :
    searchOutcome (lista_imoveis db req) =
      searchOutcome (lista_imoveis db {req with infraestrutura := a ++ b}) := by
  cases req with
  | mk b1 b2 b3 b4 b5 b6 b7 b8 b9 b10 b11 b12 b13 b14 b15 b16 b17 b18 =>
    cases h
    simp only [searchOutcome, lista_imoveis, resultRows, filteredImoveis]
    rw [List.append_eq, applyInfra_splice_fail a b s _ hp]

theorem searchOutcome_pet_skip (db : Store) (req : HttpRequest) (s : String)
    (h : req.pet_friendly = some s) (hs : s ≠ "true") :
    searchOutcome (lista_imoveis db req) =
      searchOutcome (lista_imoveis db {req with pet_friendly := none}) := by
  cases req with
  | mk b1 b2 b3 b4 b5 b6 b7 b8 b9 b10 b11 b12 b13 b14 b15 b16 b17 b18 =>
    cases h
    simp only [searchOutcome, lista_imoveis, resultRows, filteredImoveis]
    rw [applyPetFriendly_skip s hs, applyPetFriendly_none]

theorem searchOutcome_financiamento_skip (db : Store) (req : HttpRequest) (s : String)
    (h : req.financiamento = some s) (hs : s ≠ "true") :
    searchOutcome (lista_imoveis db req) =
      searchOutcome (lista_imoveis db {req with financiamento := none}) := by
  cases req with
  | mk b1 b2 b3 b4 b5 b6 b7 b8 b9 b10 b11 b12 b13 b14 b15 b16 b17 b18 =>
    cases h
    simp only [searchOutcome, lista_imoveis, resultRows, filteredImoveis]
    rw [applyFinanciamento_skip s hs, applyFinanciamento_none]

theorem searchOutcome_comFotos_skip (db : Store) (req : HttpRequest) (s : String)
    (h : req.com_fotos = some s) (hs : s ≠ "true") :
    searchOutcome (lista_imoveis db req) =
      searchOutcome (lista_imoveis db {req with com_fotos := none}) := by
  cases req with
  | mk b1 b2 b3 b4 b5 b6 b7 b8 b9 b10 b11 b12 b13 b14 b15 b16 b17 b18 =>
    cases h
    simp only [searchOutcome, lista_imoveis, resultRows, filteredImoveis]
    rw [applyComFotos_skip db s hs, applyComFotos_none]

theorem lista_imoveis_ordenacao_congr (db : Store) (req : HttpRequest)
    (o1 o2 : Option String) (h : ordenacaoNorm o1 = ordenacaoNorm o2) :
    lista_imoveis db {req with ordenacao := o1} =
      lista_imoveis db {req with ordenacao := o2} := by
  cases req with
  | mk b1 b2 b3 b4 b5 b6 b7 b8 b9 b10 b11 b12 b13 b14 b15 b16 b17 b18 =>
    simp only [lista_imoveis, resultRows, filteredImoveis]
    rw [h]

theorem mem_detalheFilter (db : Store) (pk : Int) (i : Imovel) :
    i ∈ db.imoveis.filter (detalhePred pk) ↔
      i ∈ db.imoveis ∧ i.pk = pk ∧ i.status = StatusImovel.ativo := by
  simp [List.mem_filter, detalhePred, and_assoc]

/-- C9: lookup of a single listing by identifier yields NotFound exactly when
no active listing with that key exists (also when the listing exists with a
non-active status); a success returns that listing, and with distinct
primary keys no other outcome is possible. -/
theorem C9_detail_lookup (db : Store) (pk : Int)
    (hw : List.Pairwise (fun i j => i.pk ≠ j.pk) db.imoveis) :
    (detalhe_imovel db pk = DetalheResult.notFound ↔
      ¬∃ i ∈ db.imoveis, i.pk = pk ∧ i.status = StatusImovel.ativo) ∧
    (∀ i, detalhe_imovel db pk = DetalheResult.found i →
      i ∈ db.imoveis ∧ i.pk = pk ∧ i.status = StatusImovel.ativo) ∧
    (∀ i ∈ db.imoveis, i.pk = pk → i.status = StatusImovel.ativo →
      detalhe_imovel db pk = DetalheResult.found i) ∧
    detalhe_imovel db pk ≠ DetalheResult.multiple := by
  have hpair : List.Pairwise (fun i j => i.pk ≠ j.pk) (db.imoveis.filter (detalhePred pk)) :=
    List.Pairwise.sublist (List.filter_sublist _) hw
  unfold detalhe_imovel
  cases hfl : db.imoveis.filter (detalhePred pk) with
  | nil =>
    refine ⟨⟨fun _ => ?_, fun _ => rfl⟩, fun i h => DetalheResult.noConfusion h,
      fun i hi hpk hs => ?_, fun h => DetalheResult.noConfusion h⟩
    · rintro ⟨i, hi, hpk, hs⟩
      have hmem : i ∈ db.imoveis.filter (detalhePred pk) :=
        (mem_detalheFilter db pk i).2 ⟨hi, hpk, hs⟩
      rw [hfl] at hmem
      cases hmem
    · exfalso
      have hmem : i ∈ db.imoveis.filter (detalhePred pk) :=
        (mem_detalheFilter db pk i).2 ⟨hi, hpk, hs⟩
      rw [hfl] at hmem
      cases hmem
  | cons a t =>
    cases t with
    | nil =>
      have ha : a ∈ db.imoveis ∧ a.pk = pk ∧ a.status = StatusImovel.ativo :=
        (mem_detalheFilter db pk a).1 (by rw [hfl]; exact List.mem_singleton_self a)
      refine ⟨⟨fun h => DetalheResult.noConfusion h, fun h => ?_⟩, fun i h => ?_,
        fun i hi hpk hs => ?_, fun h => DetalheResult.noConfusion h⟩
      · exact absurd ⟨a, ha.1, ha.2.1, ha.2.2⟩ h
      · injection h with h1
        subst h1
        exact ha
      · have hmem : i ∈ db.imoveis.filter (detalhePred pk) :=
          (mem_detalheFilter db pk i).2 ⟨hi, hpk, hs⟩
        rw [hfl] at hmem
        cases hmem with
        | head => rfl
        | tail _ h2 => cases h2
    | cons b t2 =>
      exfalso
      rw [hfl] at hpair
      have hab : a.pk ≠ b.pk := (List.pairwise_cons.1 hpair).1 b (by simp)
      have ha : a ∈ db.imoveis.filter (detalhePred pk) := by rw [hfl]; simp
      have hb : b ∈ db.imoveis.filter (detalhePred pk) := by rw [hfl]; simp
      have hapk := ((mem_detalheFilter db pk a).1 ha).2.1
      have hbpk := ((mem_detalheFilter db pk b).1 hb).2.1
      exact hab (hapk.trans hbpk.symm)

/-- A request with every facet absent (a bare GET of the listing page). -/
def defaultReq : HttpRequest :=
  { busca := none, finalidade := none, tipo := none, cidade := none, bairro := none,
    quartos := none, banheiros := none, vagas := none, area_min := none,
    preco_min := none, preco_max := none, mobilia := none, pet_friendly := none,
    financiamento := none, com_fotos := none, ordenacao := none, page := none,
    infraestrutura := [] }

/-- Fixture listing with the attributes the scenarios vary; the remaining
attributes are fixed innocuous values. -/
def mkCasa (pk : Int) (cidade : String) (area : ℚ) (criado : Nat)
    (st : StatusImovel) (infra : List Int) : Imovel :=
  { pk := pk, proprietario := 1, titulo := "Casa", descricao := "", endereco := "",
    bairro := "", cidade := cidade, tipo := "casa", status := st, quartos := 2,
    banheiros := 1, vagas_garagem := 1, area_util := area, mobilia := "sem_mobilia",
    pet_friendly := false, aceita_financiamento := false, criado_em := criado,
    atualizado_em := criado, infraestrutura := infra }

/-- Fixture store of the Springfield scenario: three active listings with
areas 50, 80 and 120. -/
def springfieldStore : Store :=
  { imoveis := [mkCasa 1 "Springfield" 50 10 StatusImovel.ativo [],
                mkCasa 2 "Springfield" 80 20 StatusImovel.ativo [],
                mkCasa 3 "Springfield" 120 30 StatusImovel.ativo []],
    precos := [], fotos := [] }

/-- Fixture store with one active and one sold listing. -/
def mixedStore : Store :=
  { imoveis := [mkCasa 1 "X" 50 10 StatusImovel.ativo [],
                mkCasa 2 "X" 60 20 StatusImovel.vendido []],
    precos := [], fotos := [] }

/-- Fixture store with a single active listing carrying three price rows
(values 10, 20 and 30). -/
def triPrecoStore : Store :=
  { imoveis := [mkCasa 1 "X" 50 10 StatusImovel.ativo []],
    precos := [{ pk := 1, imovel := 1, finalidade := "venda", valor := 10 },
               { pk := 2, imovel := 1, finalidade := "aluguel", valor := 20 },
               { pk := 3, imovel := 1, finalidade := "temporada", valor := 30 }],
    fotos := [] }

/-- Request selecting the price range 5 to 100 ordered by lowest price. -/
def triPrecoReq : HttpRequest :=
  { defaultReq with
      preco_min := some "5"
      preco_max := some "100"
      ordenacao := some "preco_menor" }

/-- Fixture store with a single active listing whose two price rows are 10
and 100, nothing in between. -/
def doisPrecosStore : Store :=
  { imoveis := [mkCasa 1 "X" 50 10 StatusImovel.ativo []],
    precos := [{ pk := 1, imovel := 1, finalidade := "venda", valor := 10 },
               { pk := 2, imovel := 1, finalidade := "venda", valor := 100 }],
    fotos := [] }

/-- Request with the inclusive price range 20 to 50. -/
def doisPrecosReq : HttpRequest :=
  { defaultReq with
      preco_min := some "20"
      preco_max := some "50" }

/-- Fixture store with one active listing carrying amenities 1 and 2. -/
def infraStore : Store :=
  { imoveis := [mkCasa 1 "X" 50 10 StatusImovel.ativo [1, 2]],
    precos := [], fotos := [] }

/-- Fixture store with thirteen active listings; listing 1 additionally has
two price rows with distinct values (5 and 10), all others one price row. -/
def trezeStore : Store :=
  { imoveis := [mkCasa 1 "X" 50 101 StatusImovel.ativo [],
                mkCasa 2 "X" 50 102 StatusImovel.ativo [],
                mkCasa 3 "X" 50 103 StatusImovel.ativo [],
                mkCasa 4 "X" 50 104 StatusImovel.ativo [],
                mkCasa 5 "X" 50 105 StatusImovel.ativo [],
                mkCasa 6 "X" 50 106 StatusImovel.ativo [],
                mkCasa 7 "X" 50 107 StatusImovel.ativo [],
                mkCasa 8 "X" 50 108 StatusImovel.ativo [],
                mkCasa 9 "X" 50 109 StatusImovel.ativo [],
                mkCasa 10 "X" 50 110 StatusImovel.ativo [],
                mkCasa 11 "X" 50 111 StatusImovel.ativo [],
                mkCasa 12 "X" 50 112 StatusImovel.ativo [],
                mkCasa 13 "X" 50 113 StatusImovel.ativo []],
    precos := [{ pk := 100, imovel := 1, finalidade := "venda", valor := 5 },
               { pk := 1, imovel := 1, finalidade := "venda", valor := 10 },
               { pk := 2, imovel := 2, finalidade := "venda", valor := 11 },
               { pk := 3, imovel := 3, finalidade := "venda", valor := 12 },
               { pk := 4, imovel := 4, finalidade := "venda", valor := 13 },
               { pk := 5, imovel := 5, finalidade := "venda", valor := 14 },
               { pk := 6, imovel := 6, finalidade := "venda", valor := 15 },
               { pk := 7, imovel := 7, finalidade := "venda", valor := 16 },
               { pk := 8, imovel := 8, finalidade := "venda", valor := 17 },
               { pk := 9, imovel := 9, finalidade := "venda", valor := 18 },
               { pk := 10, imovel := 10, finalidade := "venda", valor := 19 },
               { pk := 11, imovel := 11, finalidade := "venda", valor := 20 },
               { pk := 12, imovel := 12, finalidade := "venda", valor := 21 },
               { pk := 13, imovel := 13, finalidade := "venda", valor := 22 }],
    fotos := [] }

/-- Request selecting all prices at least 1, ordered by lowest price, second
page. -/
def trezeReq : HttpRequest :=
  { defaultReq with
      preco_min := some "1"
      ordenacao := some "preco_menor"
      page := some "2" }

/-- Request of the Springfield scenario: city springfield, minimum area 75. -/
def springfieldReq : HttpRequest :=
  { defaultReq with
      cidade := some "springfield"
      area_min := some "75" }

/-- Request with a non-numeric minimum-rooms value. -/
def abcReq : HttpRequest :=
  { defaultReq with quartos := some "abc" }

/-- Requests asking for amenity sets 1-2-3, 1-2 and 1. -/
def infraReqABC : HttpRequest :=
  { defaultReq with infraestrutura := ["1", "2", "3"] }

/-- Request asking for amenities 1 and 2. -/
def infraReqAB : HttpRequest :=
  { defaultReq with infraestrutura := ["1", "2"] }

/-- Request asking for amenity 1 only. -/
def infraReqA : HttpRequest :=
  { defaultReq with infraestrutura := ["1"] }

/-- C1: for every store and facet set, the reported count is at most the
number of active listings, and every listing on the returned page satisfies
every facet predicate that was actually applied (free text, purpose, type,
city, district, numeric minimums, price bounds as the code applies them,
furnished state, boolean flags, amenities). -/
theorem C1_search_sound (db : Store) (req : HttpRequest) :
    (lista_imoveis db req).totalCount ≤ (activeImoveis db).length ∧
    ∀ i ∈ (lista_imoveis db req).pageListings,
      i ∈ db.imoveis ∧ i.status = StatusImovel.ativo ∧
      (buscaStr req.busca ≠ "" → buscaMatch (buscaStr req.busca) i = true) ∧
      (∀ f, req.finalidade = some f → f ≠ "" →
        ∃ p ∈ db.precos, p.imovel = i.pk ∧ p.finalidade = f) ∧
      (∀ t, req.tipo = some t → t ≠ "" → i.tipo = t) ∧
      (∀ c, req.cidade = some c → c ≠ "" → lowerChars i.cidade = lowerChars c) ∧
      (∀ b, req.bairro = some b → b ≠ "" → icontains i.bairro b = true) ∧
      (∀ s n, req.quartos = some s → pyParseInt s = some n → n ≤ (i.quartos : Int)) ∧
      (∀ s n, req.banheiros = some s → pyParseInt s = some n → n ≤ (i.banheiros : Int)) ∧
      (∀ s n, req.vagas = some s → pyParseInt s = some n → n ≤ (i.vagas_garagem : Int)) ∧
      (∀ s x, req.area_min = some s → pyParseFloat s = some x → x ≤ i.area_util) ∧
      (∀ s x, req.preco_min = some s → pyParseFloat s = some x →
        ∃ p ∈ db.precos, p.imovel = i.pk ∧ x ≤ p.valor) ∧
      (∀ s x, req.preco_max = some s → pyParseFloat s = some x →
        ∃ p ∈ db.precos, p.imovel = i.pk ∧ p.valor ≤ x) ∧
      (∀ m, req.mobilia = some m → m ≠ "" → i.mobilia = m) ∧
      (req.pet_friendly = some "true" → i.pet_friendly = true) ∧
      (req.financiamento = some "true" → i.aceita_financiamento = true) ∧
      (req.com_fotos = some "true" → ∃ f ∈ db.fotos, f.imovel = i.pk) ∧
      (∀ s ∈ req.infraestrutura, ∀ n, pyParseInt s = some n → n ∈ i.infraestrutura) := by
  constructor
  · rw [totalCount_eq]
    exact length_filteredImoveis_le db req
  · intro i hi
    exact (mem_filteredImoveis db req i).1 (mem_pageListings_filtered db req i hi)

theorem C1_search_sound_witness :
    (lista_imoveis springfieldStore springfieldReq).totalCount ≤
      (activeImoveis springfieldStore).length ∧
    (mkCasa 3 "Springfield" 120 30 StatusImovel.ativo []).status = StatusImovel.ativo ∧
    lowerChars (mkCasa 3 "Springfield" 120 30 StatusImovel.ativo []).cidade =
      lowerChars "springfield" := by
  have h := (C1_search_sound springfieldStore springfieldReq).2
    (mkCasa 3 "Springfield" 120 30 StatusImovel.ativo []) (by decide)
  exact ⟨(C1_search_sound springfieldStore springfieldReq).1, h.2.1,
    h.2.2.2.2.2.1 "springfield" rfl (by decide)⟩

/-- C2: every listing the search returns has status ativo; in particular a
sold (vendido) listing is never returned, whatever the facets. -/
theorem C2_only_active (db : Store) (req : HttpRequest) :
    ∀ i ∈ (lista_imoveis db req).pageListings,
      i.status = StatusImovel.ativo ∧ i.status ≠ StatusImovel.vendido := by
  intro i hi
  have h := (mem_filteredImoveis db req i).1 (mem_pageListings_filtered db req i hi)
  refine ⟨h.2.1, ?_⟩
  rw [h.2.1]
  exact fun hc => StatusImovel.noConfusion hc

theorem C2_only_active_witness :
    mkCasa 2 "X" 60 20 StatusImovel.vendido [] ∉
      (lista_imoveis mixedStore defaultReq).pageListings ∧
    (mkCasa 1 "X" 50 10 StatusImovel.ativo []).status = StatusImovel.ativo :=
  ⟨by decide,
    (C2_only_active mixedStore defaultReq (mkCasa 1 "X" 50 10 StatusImovel.ativo [])
      (by decide)).1⟩

/-- C3 (code bug): with a price ordering the related valor column is part of
the SELECT DISTINCT, so the single matching listing (pk 1), which has three
in-range price rows, fills the page three times while the count query, which
drops the ordering, still reports 1.  The dedup-by-listing the code intends
(and its comment at views.py line 164 documents) does not happen here. -/
theorem C3_price_sort_duplicates :
    triPrecoStore.imoveis.length = 1 ∧
    (lista_imoveis triPrecoStore triPrecoReq).pageListings.map (fun i => i.pk) =
      [1, 1, 1] ∧
    (lista_imoveis triPrecoStore triPrecoReq).totalCount = 1 := by decide

/-- C4 counterexample: the two price rows of the only listing are 10 and 100,
neither lies in the inclusive range 20 to 50, yet the listing is returned for
minPrice 20, maxPrice 50, because each bound is checked by its own join. -/
theorem C4_counterexample :
    doisPrecosStore.precos.map (fun p => p.valor) = [10, 100] ∧
    ((10 : ℚ) < 20 ∧ (50 : ℚ) < 100) ∧
    doisPrecosReq.preco_min = some "20" ∧
    doisPrecosReq.preco_max = some "50" ∧
    (lista_imoveis doisPrecosStore doisPrecosReq).pageListings.map (fun i => i.pk) =
      [1] := by decide

/-- C4 amended: a listing passes the two price filters exactly when, for each
supplied and parseable bound separately, some price row of the listing
satisfies that bound — the two bounds may be witnessed by different price
rows, not necessarily one row inside the range. -/
theorem C4_price_bounds_independent (db : Store) (pmin pmax : Option String)
    (l : List Imovel) (i : Imovel) :
    i ∈ applyPrecoMax db pmax (applyPrecoMin db pmin l) ↔
      i ∈ l ∧
      (∀ s x, pmin = some s → pyParseFloat s = some x →
        ∃ p ∈ db.precos, p.imovel = i.pk ∧ x ≤ p.valor) ∧
      (∀ s x, pmax = some s → pyParseFloat s = some x →
        ∃ p ∈ db.precos, p.imovel = i.pk ∧ p.valor ≤ x) := by
  rw [mem_applyPrecoMax, mem_applyPrecoMin, and_assoc]

theorem C4_price_bounds_independent_witness :
    mkCasa 1 "X" 50 10 StatusImovel.ativo [] ∈
      [mkCasa 1 "X" 50 10 StatusImovel.ativo []] :=
  ((C4_price_bounds_independent doisPrecosStore (some "20") (some "50")
    [mkCasa 1 "X" 50 10 StatusImovel.ativo []]
    (mkCasa 1 "X" 50 10 StatusImovel.ativo [])).mp (by decide)).1

/-- C5: the amenity facet is conjunctive — a listing passes the amenity
filter steps exactly when it carries every parseable requested amenity
identifier, and every listing on a returned page carries them all. -/
theorem C5_amenity_conjunctive (db : Store) (req : HttpRequest) (l : List Imovel)
    (i : Imovel) :
    (i ∈ applyInfra req.infraestrutura l ↔
      i ∈ l ∧ ∀ s ∈ req.infraestrutura, ∀ n, pyParseInt s = some n →
        n ∈ i.infraestrutura) ∧
    (∀ j ∈ (lista_imoveis db req).pageListings,
      ∀ s ∈ req.infraestrutura, ∀ n, pyParseInt s = some n → n ∈ j.infraestrutura) := by
  constructor
  · exact mem_applyInfra req.infraestrutura l i
  · intro j hj s hs n hn
    obtain ⟨-, -, -, -, -, -, -, -, -, -, -, -, -, -, -, -, -, hinfra⟩ :=
      (mem_filteredImoveis db req j).1 (mem_pageListings_filtered db req j hj)
    exact hinfra s hs n hn

theorem C5_amenity_conjunctive_witness :
    mkCasa 1 "X" 50 10 StatusImovel.ativo [1, 2] ∉
      (lista_imoveis infraStore infraReqABC).pageListings ∧
    mkCasa 1 "X" 50 10 StatusImovel.ativo [1, 2] ∈
      (lista_imoveis infraStore infraReqAB).pageListings ∧
    mkCasa 1 "X" 50 10 StatusImovel.ativo [1, 2] ∈
      (lista_imoveis infraStore infraReqA).pageListings ∧
    (1 : Int) ∈ (mkCasa 1 "X" 50 10 StatusImovel.ativo [1, 2]).infraestrutura := by
  refine ⟨by decide, by decide, by decide, ?_⟩
  exact (C5_amenity_conjunctive infraStore infraReqAB []
      (mkCasa 1 "X" 50 10 StatusImovel.ativo [1, 2])).2
    (mkCasa 1 "X" 50 10 StatusImovel.ativo [1, 2]) (by decide) "1" (by decide) 1 (by decide)

/-- C6: an unrecognized ordenacao value produces exactly the same result as
relevancia, and the echoed filter state reports relevancia. -/
theorem C6_unknown_sort_fallback (db : Store) (req : HttpRequest) (s : String)
    (_h1 : s ≠ "relevancia") (h2 : s ≠ "preco_menor") (h3 : s ≠ "preco_maior")
    (h4 : s ≠ "mais_recentes") (h5 : s ≠ "maior_area") :
    lista_imoveis db { req with ordenacao := some s } =
      lista_imoveis db { req with ordenacao := some "relevancia" } ∧
    (lista_imoveis db { req with ordenacao := some s }).filtros.ordenacao =
      "relevancia" := by
  have hn : ordenacaoNorm (some s) = "relevancia" := ordenacaoNorm_default s h2 h3 h4 h5
  constructor
  · exact lista_imoveis_ordenacao_congr db req (some s) (some "relevancia")
      (by rw [hn, ordenacaoNorm_relevancia])
  · rw [filtros_ordenacao_eq]
    exact hn

theorem C6_unknown_sort_fallback_witness :
    lista_imoveis springfieldStore { defaultReq with ordenacao := some "bogus" } =
      lista_imoveis springfieldStore { defaultReq with ordenacao := some "relevancia" } ∧
    (lista_imoveis springfieldStore
      { defaultReq with ordenacao := some "bogus" }).filtros.ordenacao = "relevancia" :=
  C6_unknown_sort_fallback springfieldStore defaultReq "bogus"
    (by decide) (by decide) (by decide) (by decide) (by decide)

/-- C7: a numeric facet value that fails to parse (minimum rooms, bathrooms,
parking, area, either price bound, or an amenity identifier) is silently
treated as absent: the search outcome (page, count, page arithmetic) is the
one of the same request with that value omitted, and no error is raised. -/
theorem C7_parse_fail_ignored (db : Store) (req : HttpRequest) (s : String) :
    (req.quartos = some s → pyParseInt s = none →
      searchOutcome (lista_imoveis db req) =
        searchOutcome (lista_imoveis db { req with quartos := none })) ∧
    (req.banheiros = some s → pyParseInt s = none →
      searchOutcome (lista_imoveis db req) =
        searchOutcome (lista_imoveis db { req with banheiros := none })) ∧
    (req.vagas = some s → pyParseInt s = none →
      searchOutcome (lista_imoveis db req) =
        searchOutcome (lista_imoveis db { req with vagas := none })) ∧
    (req.area_min = some s → pyParseFloat s = none →
      searchOutcome (lista_imoveis db req) =
        searchOutcome (lista_imoveis db { req with area_min := none })) ∧
    (req.preco_min = some s → pyParseFloat s = none →
      searchOutcome (lista_imoveis db req) =
        searchOutcome (lista_imoveis db { req with preco_min := none })) ∧
    (req.preco_max = some s → pyParseFloat s = none →
      searchOutcome (lista_imoveis db req) =
        searchOutcome (lista_imoveis db { req with preco_max := none })) ∧
    (∀ a b, req.infraestrutura = a ++ s :: b → pyParseInt s = none →
      searchOutcome (lista_imoveis db req) =
        searchOutcome (lista_imoveis db { req with infraestrutura := a ++ b })) := by
  refine ⟨?_, ?_, ?_, ?_, ?_, ?_, ?_⟩
  · exact fun h hp => searchOutcome_quartos_parseFail db req s h hp
  · exact fun h hp => searchOutcome_banheiros_parseFail db req s h hp
  · exact fun h hp => searchOutcome_vagas_parseFail db req s h hp
  · exact fun h hp => searchOutcome_area_parseFail db req s h hp
  · exact fun h hp => searchOutcome_precoMin_parseFail db req s h hp
  · exact fun h hp => searchOutcome_precoMax_parseFail db req s h hp
  · exact fun a b h hp => searchOutcome_infra_parseFail db req a b s h hp

theorem C7_parse_fail_ignored_witness :
    pyParseInt "abc" = none ∧
    searchOutcome (lista_imoveis springfieldStore abcReq) =
      searchOutcome (lista_imoveis springfieldStore { abcReq with quartos := none }) :=
  ⟨by decide, (C7_parse_fail_ignored springfieldStore abcReq "abc").1 rfl (by decide)⟩

theorem length_insertLe (le : α → α → Bool) (a : α) (l : List α) :
    (insertLe le a l).length = l.length + 1 := by
  induction l with
  | nil => rfl
  | cons b bs ih =>
    simp only [insertLe]
    split
    · simp
    · simp [ih]

theorem length_insertionSort (le : α → α → Bool) (l : List α) :
    (insertionSort le l).length = l.length := by
  induction l with
  | nil => rfl
  | cons a as ih => simp [insertionSort, length_insertLe, ih]

theorem length_resultRowsOf_nonprice (db : Store) (o : String) (conds : List PriceCond)
    (ms : List Imovel) (h1 : o ≠ "preco_menor") (h2 : o ≠ "preco_maior") :
    (resultRowsOf db o conds ms).length = ms.length := by
  unfold resultRowsOf
  rw [if_neg h1, if_neg h2]
  split_ifs
  · exact length_insertionSort _ ms
  · exact length_insertionSort _ ms
  · exact length_insertionSort _ ms

/-- C8 counterexample: thirteen listings match (count 13, 2 pages), but with
the lowest-price ordering the first listing has two distinct price values, so
page 2 holds 2 rows, not 1. -/
theorem C8_pagination_counterexample :
    trezeStore.imoveis.length = 13 ∧
    (lista_imoveis trezeStore trezeReq).totalCount = 13 ∧
    (lista_imoveis trezeStore trezeReq).numPages = 2 ∧
    (lista_imoveis trezeStore trezeReq).pageNumber = 2 ∧
    (lista_imoveis trezeStore trezeReq).pageListings.length = 2 := by decide

/-- C8 amended: each returned page has at most 12 rows; the reported count is
the deduplicated pre-pagination count of matching listings; and for sort
orders keyed on listing attributes (everything except the two price
orderings) a request for page 2 of exactly 13 matching listings returns
exactly 1 listing.  Under the price orderings duplicate rows can spill onto
a page (see the counterexample). -/
theorem C8_pagination (db : Store) (req : HttpRequest) :
    (lista_imoveis db req).pageListings.length ≤ 12 ∧
    (lista_imoveis db req).totalCount = (filteredImoveis db req).length ∧
    (ordenacaoNorm req.ordenacao ≠ "preco_menor" →
      ordenacaoNorm req.ordenacao ≠ "preco_maior" →
      (filteredImoveis db req).length = 13 → req.page = some "2" →
      (lista_imoveis db req).pageListings.length = 1) := by
  refine ⟨?_, totalCount_eq db req, ?_⟩
  · rw [pageListings_eq]
    exact List.length_take_le 12 _
  · intro h1 h2 h13 hp
    have hrows : (resultRows db req).length = 13 := by
      unfold resultRows
      rw [length_resultRowsOf_nonprice db _ _ _ h1 h2, h13]
    rw [pageListings_eq, hp, h13]
    have hpn : pageNumberOf (some "2") (numPagesOf 13) = 2 := by decide
    rw [hpn, List.length_take, List.length_drop, hrows]
    decide

theorem C8_pagination_witness :
    (lista_imoveis springfieldStore springfieldReq).pageListings.length ≤ 12 ∧
    (lista_imoveis springfieldStore springfieldReq).totalCount =
      (filteredImoveis springfieldStore springfieldReq).length :=
  ⟨(C8_pagination springfieldStore springfieldReq).1,
    (C8_pagination springfieldStore springfieldReq).2.1⟩

/-- C10: the boolean facets pet_friendly, financiamento and com_fotos are
applied exactly when the raw value is the lowercase string true: any other
supplied value leaves the search outcome equal to the one with the facet
omitted, and when the value is true every returned listing satisfies the
flag. -/
theorem C10_boolean_facets (db : Store) (req : HttpRequest) (s : String)
    (hs : s ≠ "true") :
    (req.pet_friendly = some s →
      searchOutcome (lista_imoveis db req) =
        searchOutcome (lista_imoveis db { req with pet_friendly := none })) ∧
    (req.financiamento = some s →
      searchOutcome (lista_imoveis db req) =
        searchOutcome (lista_imoveis db { req with financiamento := none })) ∧
    (req.com_fotos = some s →
      searchOutcome (lista_imoveis db req) =
        searchOutcome (lista_imoveis db { req with com_fotos := none })) ∧
    (∀ i ∈ (lista_imoveis db req).pageListings,
      (req.pet_friendly = some "true" → i.pet_friendly = true) ∧
      (req.financiamento = some "true" → i.aceita_financiamento = true) ∧
      (req.com_fotos = some "true" → ∃ f ∈ db.fotos, f.imovel = i.pk)) := by
  refine ⟨?_, ?_, ?_, ?_⟩
  · exact fun h => searchOutcome_pet_skip db req s h hs
  · exact fun h => searchOutcome_financiamento_skip db req s h hs
  · exact fun h => searchOutcome_comFotos_skip db req s h hs
  · intro i hi
    obtain ⟨-, -, -, -, -, -, -, -, -, -, -, -, -, -, hpet, hfin, hfoto, -⟩ :=
      (mem_filteredImoveis db req i).1 (mem_pageListings_filtered db req i hi)
    exact ⟨hpet, hfin, hfoto⟩

theorem C10_boolean_facets_witness :
    searchOutcome (lista_imoveis mixedStore
      { defaultReq with pet_friendly := some "True" }) =
      searchOutcome (lista_imoveis mixedStore
        { { defaultReq with pet_friendly := some "True" } with pet_friendly := none }) :=
  (C10_boolean_facets mixedStore { defaultReq with pet_friendly := some "True" }
    "True" (by decide)).1 rfl

theorem C9_detail_lookup_witness :
    detalhe_imovel mixedStore 3 = DetalheResult.notFound ∧
    detalhe_imovel mixedStore 2 = DetalheResult.notFound ∧
    detalhe_imovel mixedStore 1 =
      DetalheResult.found (mkCasa 1 "X" 50 10 StatusImovel.ativo []) :=
  ⟨(C9_detail_lookup mixedStore 3 (by decide)).1.mpr (by decide),
    (C9_detail_lookup mixedStore 2 (by decide)).1.mpr (by decide),
    (C9_detail_lookup mixedStore 1 (by decide)).2.2.1
      (mkCasa 1 "X" 50 10 StatusImovel.ativo []) (by decide) rfl rfl⟩
